/-
Verification development for the yona shielded-pool program.

Shallow embedding of the transaction-verification pipeline from
`programs/yona/src/utils.rs` and the three instruction handlers in
`programs/yona/src/instructions/{deposit,withdraw,swap}.rs`.

Machine integers are modelled as Nat/Int with explicit `% 2^w` where the
source can truncate or wrap; fallible Rust code is modelled with
Option/Except; external calls (Light Protocol nullifier CPI, SPL token
transfers, the Jupiter exchange CPI, the Merkle-tree queries that live in
`merkle_tree.rs`) are modelled as oracle outcomes carried in the handler
input, since only their success/failure is observable to the handler code
under verification.
-/
import Mathlib

set_option maxHeartbeats 4000000

namespace Yona

/-- The BN254 (alt_bn128) scalar-field modulus, the order of `ark_bn254::Fr`
used throughout `utils.rs` for public-amount and ext-data-hash arithmetic. -/
def FIELD_MODULUS : Nat :=
  21888242871839275222246405745257275088548364400416034343698204186575808495617

/-- `2^64`, the size of the `u64` type. -/
def U64_SIZE : Nat := 18446744073709551616

/-- `2^128`, the size of the `u128` type. -/
def U128_SIZE : Nat := 340282366920938463463374607431768211456

/-- `i64::MIN = -(2^63)`. -/
def I64_MIN : Int := -9223372036854775808

/-- Big-endian interpretation of a byte list as a natural number. -/
def beBytesToNat (bs : List Nat) : Nat :=
  bs.foldl (fun acc b => acc * 256 + b) 0

/-- `Fr::from_be_bytes_mod_order`: big-endian bytes reduced mod the field order. -/
def fromBeBytesModOrder (bs : List Nat) : Nat :=
  beBytesToNat bs % FIELD_MODULUS

/-- `Fr::from_le_bytes_mod_order`: little-endian bytes reduced mod the field order. -/
def fromLeBytesModOrder (bs : List Nat) : Nat :=
  beBytesToNat bs.reverse % FIELD_MODULUS

/-- `i64::checked_neg`: fails exactly on `i64::MIN`. -/
def checkedNegI64 (x : Int) : Option Int :=
  if x = I64_MIN then none else some (-x)

/-- `u128::checked_mul`. -/
def checkedMulU128 (a b : Nat) : Option Nat :=
  if a * b < U128_SIZE then some (a * b) else none

/-- `u128::checked_sub`. -/
def checkedSubU128 (a b : Nat) : Option Nat :=
  if b ≤ a then some (a - b) else none

/-- `u128::checked_div`: fails only on division by zero. -/
def checkedDivU128 (a b : Nat) : Option Nat :=
  if b = 0 then none else some (a / b)

/-- Embedding of `check_public_amount` (utils.rs lines 98-134).

`Fr::from` of a `u64` is reduction mod the field order; the arkworks `Ord`
on `Fr` compares canonical integer representatives, so the source's
`ext_amount_fr <= fee_fr` is Nat `≤` on the reduced representatives.
Field subtraction `a - b` is `(a + q - b) % q` and field negation `-s` is
`(q - s % q) % q`.  The source's `checked_neg` fallback (`None => return
false`) can only fire at `i64::MIN`, which the first guard already
rejected, so the negative branch uses `Int.natAbs` directly. -/
def check_public_amount (ext_amount : Int) (fee : Nat)
    (public_amount_bytes : List Nat) : Bool :=
  if ext_amount = I64_MIN then
    false
  else if 0 ≤ ext_amount ∧
      ext_amount.natAbs % FIELD_MODULUS ≤ fee % FIELD_MODULUS then
    false
  else if 0 ≤ ext_amount then
    decide ((ext_amount.natAbs % FIELD_MODULUS + FIELD_MODULUS - fee % FIELD_MODULUS)
        % FIELD_MODULUS = fromBeBytesModOrder public_amount_bytes)
  else
    decide ((FIELD_MODULUS -
        (ext_amount.natAbs % FIELD_MODULUS + fee % FIELD_MODULUS) % FIELD_MODULUS)
        % FIELD_MODULUS = fromBeBytesModOrder public_amount_bytes)

/-- The error codes surfaced by the handlers and `validate_fee`
(usages in utils.rs and the three instruction files; `errors.rs` itself only
declares these variants).  `ExternalCallFailure` stands for any error
propagated from an external CPI (token transfer, Light Protocol call,
exchange call, account reload, tree append). -/
inductive ErrorCode where
  | UnknownRoot
  | ExtDataHashMismatch
  | InvalidPublicAmountData
  | InvalidFeeAmount
  | ArithmeticOverflow
  | InvalidProof
  | InvalidExtAmount
  | DepositLimitExceeded
  | InsufficientFundsForWithdrawal
  | Unauthorized
  | InvalidJupiterSwapData
  | MathOverflow
  | InsufficientSwapOutput
  | ExternalCallFailure
  deriving DecidableEq, Repr

deriving instance DecidableEq for Except

/-- The `min_acceptable_fee` computation duplicated verbatim in both branches
of `validate_fee` (utils.rs lines 170-180 and 198-208): when the expected fee
is positive, `expected_fee * (10000 - fee_error_margin) / 10000` in checked
`u128` arithmetic, narrowed with `as u64`; when the expected fee is zero the
minimum is zero. -/
def min_acceptable_fee (expected_fee fee_error_margin : Nat) :
    Except ErrorCode Nat :=
  if 0 < expected_fee then
    match checkedSubU128 10000 fee_error_margin with
    | none => .error .ArithmeticOverflow
    | some error_multiplier =>
      match checkedMulU128 expected_fee error_multiplier with
      | none => .error .ArithmeticOverflow
      | some prod =>
        match checkedDivU128 prod 10000 with
        | none => .error .ArithmeticOverflow
        | some q => .ok (q % U64_SIZE)
  else
    .ok 0

/-- Embedding of `validate_fee` (utils.rs lines 154-218).

The `as u64` narrowing of the `u128` quotient `ext_amount * rate / 10000` is
modelled as `% U64_SIZE` (it can really truncate: `i64::MAX * 65535 / 10000`
exceeds `2^64`).  The withdrawal branch first applies `i64::checked_neg`,
which errors with `ArithmeticOverflow` exactly at `i64::MIN`; the subsequent
`as u64` of the (now positive) negation is `Int.natAbs`. -/
def validate_fee (ext_amount : Int) (provided_fee : Nat)
    (deposit_fee_rate withdrawal_fee_rate fee_error_margin : Nat) :
    Except ErrorCode Unit :=
  if 0 < ext_amount then
    match checkedMulU128 ext_amount.natAbs deposit_fee_rate with
    | none => .error .ArithmeticOverflow
    | some prod =>
      match checkedDivU128 prod 10000 with
      | none => .error .ArithmeticOverflow
      | some q =>
        match min_acceptable_fee (q % U64_SIZE) fee_error_margin with
        | .error e => .error e
        | .ok min_fee =>
          if min_fee ≤ provided_fee then .ok () else .error .InvalidFeeAmount
  else if ext_amount < 0 then
    match checkedNegI64 ext_amount with
    | none => .error .ArithmeticOverflow
    | some w =>
      match checkedMulU128 w.natAbs withdrawal_fee_rate with
      | none => .error .ArithmeticOverflow
      | some prod =>
        match checkedDivU128 prod 10000 with
        | none => .error .ArithmeticOverflow
        | some q =>
          match min_acceptable_fee (q % U64_SIZE) fee_error_margin with
          | .error e => .error e
          | .ok min_fee =>
            if min_fee ≤ provided_fee then .ok () else .error .InvalidFeeAmount
  else
    .ok ()

/-- Outcomes of the external cryptographic primitives invoked by
`verify_compressed_proof` (utils.rs lines 221-263): the three curve-point
decompressions from the `groth16_solana` crate, the verifier constructor,
and the pairing check.  `verifyResult = none` models `verify_unchecked`
returning `Err`. -/
structure ProofVerifyEnv where
  decompressAOk : Bool
  decompressBOk : Bool
  decompressCOk : Bool
  verifierNewOk : Bool
  verifyResult : Option Bool
  deriving DecidableEq, Repr

/-- Embedding of the control flow of `verify_compressed_proof` (utils.rs
lines 221-263).  The result `none` models abnormal termination (a Rust
panic): the source calls `.unwrap()` on each decompression result (after
mapping the error into an `anchor_lang::Error` that the `unwrap` then
discards), so a failed decompression panics instead of returning `false`.
A failed `Groth16Verifier::new` returns `false`, and the final
`verify_unchecked().unwrap_or(false)` maps an `Err` to `false`. -/
def verify_compressed_proof (env : ProofVerifyEnv) : Option Bool :=
  if !env.decompressAOk then none
  else if !env.decompressBOk then none
  else if !env.decompressCOk then none
  else if !env.verifierNewOk then some false
  else some (env.verifyResult.getD false)

/-- The observable stages of the three instruction handlers, in the order
the source performs them.  A trace records the stages a handler actually
reached, in execution order. -/
inductive Step where
  | checkRoot
  | checkExtDataHash
  | checkExtAmountSign
  | checkMinAmountOut
  | checkPublicAmount0
  | checkPublicAmount1
  | validateFee
  | verifyProof
  | checkDepositLimit
  | registerNullifiers
  | checkReserveBalance
  | transferUserToReserve
  | transferFee
  | checkJupiterData
  | invokeExchange
  | transferRealizedFee
  | checkRecipientAuthority
  | transferToRecipient
  | closeRecipientAccount
  | transferSolToRecipient
  | appendCommitments
  | emitEvents
  deriving DecidableEq, Repr

/-- `a` does not occur after (the first occurrence of) `b` in `l`: whenever
both occur, the first occurrence of `a` precedes the first occurrence of
`b`.  Every handler trace visits each stage at most once, so this is the
natural ordering statement on traces. -/
def occursBefore (a b : Step) (l : List Step) : Prop :=
  a ∈ l → b ∈ l → l.indexOf a < l.indexOf b

instance (a b : Step) (l : List Step) : Decidable (occursBefore a b l) :=
  inferInstanceAs (Decidable (a ∈ l → b ∈ l → l.indexOf a < l.indexOf b))

/-- Input of the deposit handler (`instructions/deposit.rs`, `handler`,
lines 76-216): the fields of the reconstructed `ExtData` and of the
`CompressedProof` that the handler inspects, the fee policy from
`GlobalConfig`, and the outcomes of the external calls (`is_known_root`
from `merkle_tree.rs`, the sha256 digest computed by
`calculate_complete_ext_data_hash`, `verify_compressed_proof`, the Light
Protocol nullifier CPI, the two token transfers, and the two tree
appends). -/
structure DepositInput where
  rootKnown : Bool
  calculatedExtDataHash : List Nat
  proofExtDataHash : List Nat
  extAmount : Int
  fee : Nat
  publicAmount0 : List Nat
  publicAmount1 : List Nat
  depositFeeRate : Nat
  withdrawalFeeRate : Nat
  feeErrorMargin : Nat
  proofValid : Bool
  maxDepositAmount : Nat
  nullifiersOk : Bool
  depositTransferOk : Bool
  feeTransferOk : Bool
  appendsOk : Bool
  deriving DecidableEq, Repr

/-- The effectful tail of the deposit handler (`instructions/deposit.rs`
lines 169-215) reached after nullifier registration succeeds: the token
transfer from the user to the reserve, the fee transfer when the fee is
positive, the two commitment appends, and the emitted events. -/
def deposit_execute (i : DepositInput) : List Step × Except ErrorCode Unit :=
  if ¬ i.depositTransferOk then
    ([.checkRoot, .checkExtDataHash, .checkPublicAmount0, .checkPublicAmount1,
      .validateFee, .verifyProof, .checkExtAmountSign, .checkDepositLimit,
      .registerNullifiers, .transferUserToReserve], .error .ExternalCallFailure)
  else if 0 < i.fee then
    if ¬ i.feeTransferOk then
      ([.checkRoot, .checkExtDataHash, .checkPublicAmount0, .checkPublicAmount1,
        .validateFee, .verifyProof, .checkExtAmountSign, .checkDepositLimit,
        .registerNullifiers, .transferUserToReserve, .transferFee],
        .error .ExternalCallFailure)
    else if ¬ i.appendsOk then
      ([.checkRoot, .checkExtDataHash, .checkPublicAmount0, .checkPublicAmount1,
        .validateFee, .verifyProof, .checkExtAmountSign, .checkDepositLimit,
        .registerNullifiers, .transferUserToReserve, .transferFee,
        .appendCommitments], .error .ExternalCallFailure)
    else
      ([.checkRoot, .checkExtDataHash, .checkPublicAmount0, .checkPublicAmount1,
        .validateFee, .verifyProof, .checkExtAmountSign, .checkDepositLimit,
        .registerNullifiers, .transferUserToReserve, .transferFee,
        .appendCommitments, .emitEvents], .ok ())
  else
    if ¬ i.appendsOk then
      ([.checkRoot, .checkExtDataHash, .checkPublicAmount0, .checkPublicAmount1,
        .validateFee, .verifyProof, .checkExtAmountSign, .checkDepositLimit,
        .registerNullifiers, .transferUserToReserve, .appendCommitments],
        .error .ExternalCallFailure)
    else
      ([.checkRoot, .checkExtDataHash, .checkPublicAmount0, .checkPublicAmount1,
        .validateFee, .verifyProof, .checkExtAmountSign, .checkDepositLimit,
        .registerNullifiers, .transferUserToReserve, .appendCommitments,
        .emitEvents], .ok ())

/-- Embedding of the deposit handler (`instructions/deposit.rs` lines
76-216), returning the trace of stages reached and the result.  The
`require!` chain is the nested if-else; `deposit_amount = ext_amount as
u64` after the positivity check is `Int.toNat`. -/
def deposit_handler (i : DepositInput) : List Step × Except ErrorCode Unit :=
  if ¬ i.rootKnown then
    ([.checkRoot], .error .UnknownRoot)
  else if ¬ (fromLeBytesModOrder i.calculatedExtDataHash
      = fromBeBytesModOrder i.proofExtDataHash) then
    ([.checkRoot, .checkExtDataHash], .error .ExtDataHashMismatch)
  else if ¬ (check_public_amount i.extAmount i.fee i.publicAmount0 = true) then
    ([.checkRoot, .checkExtDataHash, .checkPublicAmount0],
      .error .InvalidPublicAmountData)
  else if ¬ (i.publicAmount1 = List.replicate 32 0) then
    ([.checkRoot, .checkExtDataHash, .checkPublicAmount0, .checkPublicAmount1],
      .error .InvalidPublicAmountData)
  else
    match validate_fee i.extAmount i.fee i.depositFeeRate i.withdrawalFeeRate
        i.feeErrorMargin with
    | .error e =>
      ([.checkRoot, .checkExtDataHash, .checkPublicAmount0, .checkPublicAmount1,
        .validateFee], .error e)
    | .ok _ =>
      if ¬ i.proofValid then
        ([.checkRoot, .checkExtDataHash, .checkPublicAmount0, .checkPublicAmount1,
          .validateFee, .verifyProof], .error .InvalidProof)
      else if ¬ (0 < i.extAmount) then
        ([.checkRoot, .checkExtDataHash, .checkPublicAmount0, .checkPublicAmount1,
          .validateFee, .verifyProof, .checkExtAmountSign], .error .InvalidExtAmount)
      else if ¬ (i.extAmount.toNat ≤ i.maxDepositAmount) then
        ([.checkRoot, .checkExtDataHash, .checkPublicAmount0, .checkPublicAmount1,
          .validateFee, .verifyProof, .checkExtAmountSign, .checkDepositLimit],
          .error .DepositLimitExceeded)
      else if ¬ i.nullifiersOk then
        ([.checkRoot, .checkExtDataHash, .checkPublicAmount0, .checkPublicAmount1,
          .validateFee, .verifyProof, .checkExtAmountSign, .checkDepositLimit,
          .registerNullifiers], .error .ExternalCallFailure)
      else
        deposit_execute i

/-- Input of the withdraw handler (`instructions/withdraw.rs`, `handler`,
lines 80-279).  `recipientAuthorityOk` is the outcome of the
`recipient_token_account.owner` check of whichever branch (WSOL: owner =
relayer; SPL: owner = recipient) applies; `isNativeSol` is whether the
input mint is the native WSOL mint. -/
structure WithdrawInput where
  rootKnown : Bool
  calculatedExtDataHash : List Nat
  proofExtDataHash : List Nat
  extAmount : Int
  fee : Nat
  publicAmount0 : List Nat
  publicAmount1 : List Nat
  depositFeeRate : Nat
  withdrawalFeeRate : Nat
  feeErrorMargin : Nat
  proofValid : Bool
  nullifiersOk : Bool
  reserveBalance : Nat
  feeTransferOk : Bool
  isNativeSol : Bool
  recipientAuthorityOk : Bool
  recipientTransferOk : Bool
  closeOk : Bool
  solTransferOk : Bool
  appendsOk : Bool
  deriving DecidableEq, Repr

/-- The stages of the withdraw handler shared by every branch that survives
nullifier registration and the `checked_neg` of `ext_amount`. -/
def withdrawStem : List Step :=
  [.checkRoot, .checkExtDataHash, .checkPublicAmount0, .checkPublicAmount1,
   .validateFee, .verifyProof, .checkExtAmountSign, .registerNullifiers]

/-- The payout tail of the withdraw handler (`instructions/withdraw.rs`
lines 194-278): the WSOL branch (authority check against the relayer,
token transfer, account close to the relayer, system transfer of SOL to
the recipient) or the SPL branch (authority check against the recipient,
single token transfer), followed by the two commitment appends and the
events. -/
def withdraw_payout (i : WithdrawInput) (t : List Step) :
    List Step × Except ErrorCode Unit :=
  if i.isNativeSol then
    if ¬ i.recipientAuthorityOk then
      (t ++ [.checkRecipientAuthority], .error .Unauthorized)
    else if ¬ i.recipientTransferOk then
      (t ++ [.checkRecipientAuthority, .transferToRecipient],
        .error .ExternalCallFailure)
    else if ¬ i.closeOk then
      (t ++ [.checkRecipientAuthority, .transferToRecipient,
        .closeRecipientAccount], .error .ExternalCallFailure)
    else if ¬ i.solTransferOk then
      (t ++ [.checkRecipientAuthority, .transferToRecipient,
        .closeRecipientAccount, .transferSolToRecipient],
        .error .ExternalCallFailure)
    else if ¬ i.appendsOk then
      (t ++ [.checkRecipientAuthority, .transferToRecipient,
        .closeRecipientAccount, .transferSolToRecipient, .appendCommitments],
        .error .ExternalCallFailure)
    else
      (t ++ [.checkRecipientAuthority, .transferToRecipient,
        .closeRecipientAccount, .transferSolToRecipient, .appendCommitments,
        .emitEvents], .ok ())
  else
    if ¬ i.recipientAuthorityOk then
      (t ++ [.checkRecipientAuthority], .error .Unauthorized)
    else if ¬ i.recipientTransferOk then
      (t ++ [.checkRecipientAuthority, .transferToRecipient],
        .error .ExternalCallFailure)
    else if ¬ i.appendsOk then
      (t ++ [.checkRecipientAuthority, .transferToRecipient, .appendCommitments],
        .error .ExternalCallFailure)
    else
      (t ++ [.checkRecipientAuthority, .transferToRecipient, .appendCommitments,
        .emitEvents], .ok ())

/-- The effectful tail of the withdraw handler (`instructions/withdraw.rs`
lines 157-278) reached after nullifier registration succeeds: negate
`ext_amount` (`checked_neg` fails only at `i64::MIN`), require the reserve
to cover the withdrawal, pay the fee first when positive, then run the
payout branch. -/
def withdraw_execute (i : WithdrawInput) : List Step × Except ErrorCode Unit :=
  if i.extAmount = I64_MIN then
    (withdrawStem, .error .ArithmeticOverflow)
  else if ¬ (i.extAmount.natAbs ≤ i.reserveBalance) then
    (withdrawStem ++ [.checkReserveBalance],
      .error .InsufficientFundsForWithdrawal)
  else if 0 < i.fee ∧ ¬ i.feeTransferOk then
    (withdrawStem ++ [.checkReserveBalance, .transferFee],
      .error .ExternalCallFailure)
  else
    withdraw_payout i
      (withdrawStem ++ [.checkReserveBalance] ++
        (if 0 < i.fee then [.transferFee] else []))

/-- Embedding of the withdraw handler (`instructions/withdraw.rs` lines
80-279).  After nullifier registration the source negates `ext_amount` with
`checked_neg` (error `ArithmeticOverflow` at `i64::MIN`), requires the
reserve balance to cover it, pays the fee if positive, and then pays the
recipient — via transfer/close/system-transfer in the WSOL branch, via a
single transfer in the SPL branch — before appending commitments. -/
def withdraw_handler (i : WithdrawInput) : List Step × Except ErrorCode Unit :=
  if ¬ i.rootKnown then
    ([.checkRoot], .error .UnknownRoot)
  else if ¬ (fromLeBytesModOrder i.calculatedExtDataHash
      = fromBeBytesModOrder i.proofExtDataHash) then
    ([.checkRoot, .checkExtDataHash], .error .ExtDataHashMismatch)
  else if ¬ (check_public_amount i.extAmount i.fee i.publicAmount0 = true) then
    ([.checkRoot, .checkExtDataHash, .checkPublicAmount0],
      .error .InvalidPublicAmountData)
  else if ¬ (i.publicAmount1 = List.replicate 32 0) then
    ([.checkRoot, .checkExtDataHash, .checkPublicAmount0, .checkPublicAmount1],
      .error .InvalidPublicAmountData)
  else
    match validate_fee i.extAmount i.fee i.depositFeeRate i.withdrawalFeeRate
        i.feeErrorMargin with
    | .error e =>
      ([.checkRoot, .checkExtDataHash, .checkPublicAmount0, .checkPublicAmount1,
        .validateFee], .error e)
    | .ok _ =>
      if ¬ i.proofValid then
        ([.checkRoot, .checkExtDataHash, .checkPublicAmount0, .checkPublicAmount1,
          .validateFee, .verifyProof], .error .InvalidProof)
      else if ¬ (i.extAmount < 0) then
        ([.checkRoot, .checkExtDataHash, .checkPublicAmount0, .checkPublicAmount1,
          .validateFee, .verifyProof, .checkExtAmountSign], .error .InvalidExtAmount)
      else if ¬ i.nullifiersOk then
        (withdrawStem, .error .ExternalCallFailure)
      else
        withdraw_execute i

/-- Input of the swap handler (`instructions/swap.rs`, `handler`, lines
106-310).  `balanceBefore`/`balanceAfter` are the custody output-account
balances read before the Jupiter CPI and after the reload. -/
structure SwapInput where
  rootKnown : Bool
  calculatedExtDataHash : List Nat
  proofExtDataHash : List Nat
  extAmount : Int
  extMinAmountOut : Int
  fee : Nat
  publicAmount0 : List Nat
  publicAmount1 : List Nat
  proofValid : Bool
  nullifiersOk : Bool
  jupiterSwapData : List Nat
  exchangeOk : Bool
  reloadOk : Bool
  balanceBefore : Nat
  balanceAfter : Nat
  feeTransferOk : Bool
  appendsOk : Bool
  deriving DecidableEq, Repr

/-- The realized amounts computed by a successful swap. -/
structure SwapOutcome where
  actualAmountReceived : Nat
  calculatedFee : Nat
  deriving DecidableEq, Repr

/-- The stages of the swap handler shared by every branch that survives
nullifier registration. -/
def swapStem : List Step :=
  [.checkRoot, .checkExtDataHash, .checkExtAmountSign, .checkMinAmountOut,
   .checkPublicAmount0, .checkPublicAmount1, .verifyProof, .registerNullifiers]

/-- The effectful tail of the swap handler (`instructions/swap.rs` lines
207-309) reached after nullifier registration succeeds: the non-empty
exchange-payload check, the Jupiter CPI, the account reload, the checked
balance delta, the realized-fee computation against `ext_min_amount_out`,
the realized-fee transfer when positive, the appends and the events. -/
def swap_execute (i : SwapInput) : List Step × Except ErrorCode SwapOutcome :=
  if ¬ (0 < i.jupiterSwapData.length) then
    (swapStem ++ [.checkJupiterData], .error .InvalidJupiterSwapData)
  else if ¬ i.exchangeOk then
    (swapStem ++ [.checkJupiterData, .invokeExchange], .error .ExternalCallFailure)
  else if ¬ i.reloadOk then
    (swapStem ++ [.checkJupiterData, .invokeExchange], .error .ExternalCallFailure)
  else if ¬ (i.balanceBefore ≤ i.balanceAfter) then
    (swapStem ++ [.checkJupiterData, .invokeExchange], .error .MathOverflow)
  else if ¬ (i.extMinAmountOut.toNat ≤ i.balanceAfter - i.balanceBefore) then
    (swapStem ++ [.checkJupiterData, .invokeExchange],
      .error .InsufficientSwapOutput)
  else if 0 < i.balanceAfter - i.balanceBefore - i.extMinAmountOut.toNat then
    if ¬ i.feeTransferOk then
      (swapStem ++ [.checkJupiterData, .invokeExchange, .transferRealizedFee],
        .error .ExternalCallFailure)
    else if ¬ i.appendsOk then
      (swapStem ++ [.checkJupiterData, .invokeExchange, .transferRealizedFee,
        .appendCommitments], .error .ExternalCallFailure)
    else if i.extAmount = I64_MIN then
      (swapStem ++ [.checkJupiterData, .invokeExchange, .transferRealizedFee,
        .appendCommitments], .error .ArithmeticOverflow)
    else
      (swapStem ++ [.checkJupiterData, .invokeExchange, .transferRealizedFee,
        .appendCommitments, .emitEvents],
        .ok ⟨i.balanceAfter - i.balanceBefore,
          i.balanceAfter - i.balanceBefore - i.extMinAmountOut.toNat⟩)
  else
    if ¬ i.appendsOk then
      (swapStem ++ [.checkJupiterData, .invokeExchange, .appendCommitments],
        .error .ExternalCallFailure)
    else if i.extAmount = I64_MIN then
      (swapStem ++ [.checkJupiterData, .invokeExchange, .appendCommitments],
        .error .ArithmeticOverflow)
    else
      (swapStem ++ [.checkJupiterData, .invokeExchange, .appendCommitments,
        .emitEvents],
        .ok ⟨i.balanceAfter - i.balanceBefore,
          i.balanceAfter - i.balanceBefore - i.extMinAmountOut.toNat⟩)

/-- Big-endian 32-byte encoding of 990. -/
def bytes990 : List Nat :=
  [0,0,0,0,0,0,0,0,0,0,0,0,0,0,0,0,0,0,0,0,0,0,0,0,0,0,0,0,0,0,3,222]

/-- Big-endian 32-byte encoding of `990 + FIELD_MODULUS`, a non-canonical
encoding of the field element 990. -/
def bytes990PlusMod : List Nat :=
  [48,100,78,114,225,49,160,41,184,80,69,182,129,129,88,93,40,51,232,72,
   121,185,112,145,67,225,245,147,240,0,3,223]

/-- Big-endian 32-byte encoding of `FIELD_MODULUS - 505`. -/
def bytesModMinus505 : List Nat :=
  [48,100,78,114,225,49,160,41,184,80,69,182,129,129,88,93,40,51,232,72,
   121,185,112,145,67,225,245,147,239,255,254,8]

/-- Big-endian 32-byte encoding of `FIELD_MODULUS - 101`. -/
def bytesModMinus101 : List Nat :=
  [48,100,78,114,225,49,160,41,184,80,69,182,129,129,88,93,40,51,232,72,
   121,185,112,145,67,225,245,147,239,255,255,156]

/-- Big-endian 32-byte encoding of `FIELD_MODULUS` itself: a 32-byte string
that is field-equal to zero but is not the all-zero byte pattern. -/
def bytesMod : List Nat :=
  [48,100,78,114,225,49,160,41,184,80,69,182,129,129,88,93,40,51,232,72,
   121,185,112,145,67,225,245,147,240,0,0,1]

/-- Big-endian 32-byte encoding of 900. -/
def bytes900 : List Nat :=
  [0,0,0,0,0,0,0,0,0,0,0,0,0,0,0,0,0,0,0,0,0,0,0,0,0,0,0,0,0,0,3,132]

/-- The minimum-acceptable-fee formula exactly as claim C4 states it:
`floor(floor(|ext_amount| * rate / 10000) * (10000 - error_margin) / 10000)`
(natural-number division, margin at most 10000). -/
def claimMinAcceptableFee (amount rate margin : Nat) : Nat :=
  amount * rate / 10000 * (10000 - margin) / 10000

/-- Evaluation of `min_acceptable_fee` under the in-range side conditions:
for `q < 2^64` and a margin within basis-point range the checked chain
cannot fail and computes `q * (10000 - margin) / 10000`. -/
theorem min_acceptable_fee_eval (q m : Nat) (hq : q < U64_SIZE) (hm : m ≤ 10000) :
    min_acceptable_fee (q % U64_SIZE) m = .ok (q * (10000 - m) / 10000) := by
  have hqe : q % U64_SIZE = q := Nat.mod_eq_of_lt hq
  rw [hqe]
  rcases Nat.eq_zero_or_pos q with h0 | hpos
  · subst h0; simp [min_acceptable_fee]
  · have hmul : q * (10000 - m) < U128_SIZE := by
      have h1 : q * (10000 - m) ≤ q * 10000 := Nat.mul_le_mul_left q (by omega)
      have h2 : q * 10000 < U64_SIZE * 10000 :=
        Nat.mul_lt_mul_of_lt_of_le hq (Nat.le_refl _) (by norm_num)
      unfold U64_SIZE U128_SIZE at *
      omega
    have hr : q * (10000 - m) / 10000 ≤ q := by
      calc q * (10000 - m) / 10000 ≤ q * 10000 / 10000 :=
            Nat.div_le_div_right (Nat.mul_le_mul_left q (by omega))
        _ = q := Nat.mul_div_cancel q (by norm_num)
    have h10 : ¬ (10000 = 0) := by norm_num
    simp [min_acceptable_fee, checkedSubU128, checkedMulU128, checkedDivU128,
      hpos, hm, hmul, h10, Nat.mod_eq_of_lt (Nat.lt_of_le_of_lt hr hq)]

/-- Evaluation of `validate_fee` on the deposit branch under in-range side
conditions (`ext_amount` a positive `i64`, rate a `u16`, margin within
basis-point range, no `as u64` truncation of the expected fee). -/
theorem validate_fee_pos_eval (e : Int) (fee dr wr m : Nat)
    (hpos : 0 < e) (hhi : e < 9223372036854775808)
    (hdr : dr < 65536) (hm : m ≤ 10000)
    (htr : e.natAbs * dr / 10000 < U64_SIZE) :
    validate_fee e fee dr wr m =
      (if e.natAbs * dr / 10000 * (10000 - m) / 10000 ≤ fee then .ok ()
       else .error .InvalidFeeAmount) := by
  have hna : e.natAbs < 9223372036854775808 := by omega
  have hmul : e.natAbs * dr < U128_SIZE := by
    have h1 : e.natAbs * dr ≤ e.natAbs * 65535 :=
      Nat.mul_le_mul_left _ (by omega)
    have h2 : e.natAbs * 65535 < 9223372036854775808 * 65535 :=
      Nat.mul_lt_mul_of_lt_of_le hna (Nat.le_refl _) (by norm_num)
    have h3 : (9223372036854775808 : Nat) * 65535 < U128_SIZE := by
      norm_num [U128_SIZE]
    omega
  have h10 : ¬ (10000 = 0) := by norm_num
  unfold validate_fee
  rw [if_pos hpos]
  simp [checkedMulU128, checkedDivU128, hmul, h10,
    min_acceptable_fee_eval _ m htr hm]

/-- Evaluation of `validate_fee` on the withdrawal branch under in-range
side conditions. -/
theorem validate_fee_neg_eval (e : Int) (fee dr wr m : Nat)
    (hneg : e < 0) (hlo : I64_MIN < e)
    (hwr : wr < 65536) (hm : m ≤ 10000)
    (htr : e.natAbs * wr / 10000 < U64_SIZE) :
    validate_fee e fee dr wr m =
      (if e.natAbs * wr / 10000 * (10000 - m) / 10000 ≤ fee then .ok ()
       else .error .InvalidFeeAmount) := by
  have hlo' : -9223372036854775808 < e := by
    simpa [I64_MIN] using hlo
  have hna : e.natAbs < 9223372036854775808 := by omega
  have hne : ¬ (e = I64_MIN) := by simp only [I64_MIN]; omega
  have hmul : e.natAbs * wr < U128_SIZE := by
    have h1 : e.natAbs * wr ≤ e.natAbs * 65535 :=
      Nat.mul_le_mul_left _ (by omega)
    have h2 : e.natAbs * 65535 < 9223372036854775808 * 65535 :=
      Nat.mul_lt_mul_of_lt_of_le hna (Nat.le_refl _) (by norm_num)
    have h3 : (9223372036854775808 : Nat) * 65535 < U128_SIZE := by
      norm_num [U128_SIZE]
    omega
  have h10 : ¬ (10000 = 0) := by norm_num
  unfold validate_fee
  rw [if_neg (by omega : ¬ (0 < e)), if_pos hneg]
  simp [checkedNegI64, hne, Int.natAbs_neg, checkedMulU128, checkedDivU128,
    hmul, h10, min_acceptable_fee_eval _ m htr hm]

/-- Claim C4 (amended): for an `ext_amount` in `i64` range other than
`i64::MIN`, `u16` rates, an error margin within basis-point range
(`≤ 10000`), and an expected fee `floor(|ext_amount| * rate / 10000)` that
fits in a `u64`, `validate_fee` accepts exactly when the provided fee is at
least `floor(floor(|ext_amount| * rate / 10000) * (10000 - margin) / 10000)`
— deposit rate for positive amounts, withdrawal rate for negative ones —
and always accepts a zero `ext_amount`. -/
theorem C4_validate_fee_amended (e : Int) (fee dr wr m : Nat)
    (hlo : I64_MIN < e) (hhi : e < 9223372036854775808)
    (hdr : dr < 65536) (hwr : wr < 65536) (hm : m ≤ 10000)
    (htr : e.natAbs * (if 0 < e then dr else wr) / 10000 < U64_SIZE) :
    validate_fee e fee dr wr m = .ok () ↔
      e = 0 ∨ claimMinAcceptableFee e.natAbs (if 0 < e then dr else wr) m ≤ fee := by
  rcases lt_trichotomy e 0 with hneg | h0 | hpos
  · rw [if_neg (by omega)] at htr
    rw [if_neg (by omega : ¬ (0 < e))]
    rw [validate_fee_neg_eval e fee dr wr m hneg hlo hwr hm htr]
    unfold claimMinAcceptableFee
    have he0 : ¬ (e = 0) := by omega
    split
    · next hle => simp [hle, he0]
    · next hnle => simp [hnle, he0]
  · subst h0
    simp [validate_fee]
  · rw [if_pos hpos] at htr
    rw [if_pos hpos]
    rw [validate_fee_pos_eval e fee dr wr m hpos hhi hdr hm htr]
    unfold claimMinAcceptableFee
    have he0 : ¬ (e = 0) := by omega
    split
    · next hle => simp [hle, he0]
    · next hnle => simp [hnle, he0]

/-- Witness for C4: with `deposit_rate = 100`, `error_margin = 500`,
`ext_amount = 10000` the minimum acceptable fee is 95: a provided fee of
95 is accepted and 94 is rejected. -/
theorem C4_witness :
    validate_fee 10000 95 100 0 500 = .ok () ∧
    ¬ validate_fee 10000 94 100 0 500 = .ok () := by
  constructor
  · exact (C4_validate_fee_amended 10000 95 100 0 500 (by decide) (by decide)
      (by decide) (by decide) (by decide) (by decide)).mpr (Or.inr (by decide))
  · intro h
    exact absurd ((C4_validate_fee_amended 10000 94 100 0 500 (by decide)
      (by decide) (by decide) (by decide) (by decide) (by decide)).mp h)
      (by decide)

/-- Counterexample for C4 as stated.  First: with `error_margin = 20000`
(a `u16` above the basis-point range) the claim's formula demands
acceptance of any generous fee, but the code returns `ArithmeticOverflow`.
Second: at `ext_amount = i64::MIN` with zero withdrawal rate the claim's
minimum is 0 so any fee should be accepted, but the code returns
`ArithmeticOverflow` from `checked_neg`.  Third: at `ext_amount = 2^62`,
`deposit_rate = 40000` the expected fee `2^64` is truncated to 0 by
`as u64`, so the code accepts a zero fee that the claim's untruncated
formula (minimum `2^64`) rejects. -/
theorem C4_counterexample :
    (validate_fee 10000 1000000 100 100 20000 = .error .ArithmeticOverflow ∧
      claimMinAcceptableFee 10000 100 20000 = 0) ∧
    (validate_fee I64_MIN 1000000 100 0 0 = .error .ArithmeticOverflow ∧
      claimMinAcceptableFee (Int.natAbs I64_MIN) 0 0 = 0) ∧
    (validate_fee 4611686018427387904 0 40000 0 0 = .ok () ∧
      ¬ claimMinAcceptableFee 4611686018427387904 40000 0 ≤ 0) := by
  refine ⟨⟨by decide, by decide⟩, ⟨by decide, by decide⟩, by decide, by decide⟩

/-- Claim C10 (amended): for a nonzero `ext_amount` in `i64` range other
than `i64::MIN` and `u16` rates, if the `u64`-truncated expected fee
`floor(|ext_amount| * rate / 10000) mod 2^64` is positive and the error
margin exceeds 10000 then `validate_fee` returns `ArithmeticOverflow` for
every provided fee; and whenever that truncated expected fee is zero it
returns `Ok` regardless of the margin. -/
theorem C10_validate_fee_margin_overflow (e : Int) (fee dr wr m : Nat)
    (hlo : I64_MIN < e) (hhi : e < 9223372036854775808) (hne : e ≠ 0)
    (hdr : dr < 65536) (hwr : wr < 65536) :
    (10000 < m → 0 < e.natAbs * (if 0 < e then dr else wr) / 10000 % U64_SIZE →
      validate_fee e fee dr wr m = .error .ArithmeticOverflow) ∧
    (e.natAbs * (if 0 < e then dr else wr) / 10000 % U64_SIZE = 0 →
      validate_fee e fee dr wr m = .ok ()) := by
  have hlo' : -9223372036854775808 < e := by simpa [I64_MIN] using hlo
  have hna : e.natAbs < 9223372036854775808 := by omega
  have hne' : ¬ (e = I64_MIN) := by simp only [I64_MIN]; omega
  have h10 : ¬ (10000 = 0) := by norm_num
  rcases lt_trichotomy e 0 with hneg | h0 | hpos
  · rw [if_neg (by omega : ¬ (0 < e))]
    have hmul : e.natAbs * wr < U128_SIZE := by
      have h1 : e.natAbs * wr ≤ e.natAbs * 65535 :=
        Nat.mul_le_mul_left _ (by omega)
      have h2 : e.natAbs * 65535 < 9223372036854775808 * 65535 :=
        Nat.mul_lt_mul_of_lt_of_le hna (Nat.le_refl _) (by norm_num)
      have h3 : (9223372036854775808 : Nat) * 65535 < U128_SIZE := by
        norm_num [U128_SIZE]
      omega
    constructor
    · intro hm hq
      unfold validate_fee
      rw [if_neg (show ¬ (0 < e) by omega), if_pos hneg]
      simp only [checkedNegI64, if_neg hne', Int.natAbs_neg, checkedMulU128,
        if_pos hmul, checkedDivU128, if_neg h10]
      unfold min_acceptable_fee checkedSubU128
      rw [if_pos hq, if_neg (show ¬ (m ≤ 10000) by omega)]
    · intro hq
      unfold validate_fee
      rw [if_neg (show ¬ (0 < e) by omega), if_pos hneg]
      simp only [checkedNegI64, if_neg hne', Int.natAbs_neg, checkedMulU128,
        if_pos hmul, checkedDivU128, if_neg h10]
      unfold min_acceptable_fee
      rw [hq]
      simp
  · exact absurd h0 hne
  · rw [if_pos hpos]
    have hmul : e.natAbs * dr < U128_SIZE := by
      have h1 : e.natAbs * dr ≤ e.natAbs * 65535 :=
        Nat.mul_le_mul_left _ (by omega)
      have h2 : e.natAbs * 65535 < 9223372036854775808 * 65535 :=
        Nat.mul_lt_mul_of_lt_of_le hna (Nat.le_refl _) (by norm_num)
      have h3 : (9223372036854775808 : Nat) * 65535 < U128_SIZE := by
        norm_num [U128_SIZE]
      omega
    constructor
    · intro hm hq
      unfold validate_fee
      rw [if_pos hpos]
      simp only [checkedMulU128, if_pos hmul, checkedDivU128, if_neg h10]
      unfold min_acceptable_fee checkedSubU128
      rw [if_pos hq, if_neg (show ¬ (m ≤ 10000) by omega)]
    · intro hq
      unfold validate_fee
      rw [if_pos hpos]
      simp only [checkedMulU128, if_pos hmul, checkedDivU128, if_neg h10]
      unfold min_acceptable_fee
      rw [hq]
      simp

/-- Witness for C10: `ext_amount = 10000`, `deposit_rate = 100` gives a
positive truncated expected fee, so margin 10001 forces the overflow error;
and `ext_amount = -3`, `withdrawal_rate = 100` gives expected fee 0, so even
margin 20000 accepts. -/
theorem C10_witness :
    validate_fee 10000 0 100 0 10001 = .error .ArithmeticOverflow ∧
    validate_fee (-3) 7 0 100 20000 = .ok () := by
  constructor
  · exact (C10_validate_fee_margin_overflow 10000 0 100 0 10001 (by decide)
      (by decide) (by decide) (by decide) (by decide)).1 (by decide) (by decide)
  · exact (C10_validate_fee_margin_overflow (-3) 7 0 100 20000 (by decide)
      (by decide) (by decide) (by decide) (by decide)).2 (by decide)

/-- Counterexample for C10 as stated.  First: at `ext_amount = i64::MIN`
with zero withdrawal rate the claim's expected fee is 0 so it demands `Ok`,
but the code fails `checked_neg` and returns `ArithmeticOverflow`.  Second:
at `ext_amount = 2^62`, `deposit_rate = 40000`, margin `20000 > 10000` the
claim's expected fee `floor(2^62 * 40000 / 10000) = 2^64` is positive so it
demands `ArithmeticOverflow`, but the `as u64` truncation makes the code's
expected fee 0 and the call succeeds. -/
theorem C10_counterexample :
    validate_fee I64_MIN 5 0 0 20000 = .error .ArithmeticOverflow ∧
    (0 < Int.natAbs I64_MIN * 0 / 10000 % U64_SIZE ∨
      validate_fee 4611686018427387904 5 40000 0 20000 = .ok ()) := by
  refine ⟨by decide, Or.inr (by decide)⟩

/-- Claim C1: evaluation at the failing inputs.  Whenever any of the three
curve-point decompressions fails, `verify_compressed_proof` aborts
abnormally (the source's `.unwrap()` panics, modelled as `none`) instead of
returning the boolean `false` to the orchestrator. -/
theorem C1_decompression_failure_panics :
    verify_compressed_proof ⟨false, true, true, true, some true⟩ = none ∧
    verify_compressed_proof ⟨true, false, true, true, some true⟩ = none ∧
    verify_compressed_proof ⟨true, true, false, true, some true⟩ = none ∧
    verify_compressed_proof ⟨true, true, true, false, some true⟩ = some false ∧
    verify_compressed_proof ⟨true, true, true, true, none⟩ = some false := by
  decide

/-- Claim C3: concrete behaviour of `check_public_amount`.  It rejects
`i64::MIN` for every fee and byte string; for `ext_amount = 1000, fee = 10`
it accepts exactly the byte strings that field-encode 990; for
`ext_amount = 5, fee = 10` (amount not exceeding the fee) it rejects every
byte string; for `ext_amount = -500, fee = 5` it accepts exactly the byte
strings that field-encode `FIELD_MODULUS - 505`. -/
theorem C3_check_public_amount_eval :
    (∀ (fee : Nat) (bs : List Nat), check_public_amount I64_MIN fee bs = false) ∧
    (∀ bs : List Nat,
      check_public_amount 1000 10 bs = true ↔ fromBeBytesModOrder bs = 990) ∧
    (∀ (bs : List Nat), check_public_amount 5 10 bs = false) ∧
    (∀ bs : List Nat,
      check_public_amount (-500) 5 bs = true ↔
        fromBeBytesModOrder bs = FIELD_MODULUS - 505) := by
  refine ⟨?_, ?_, ?_, ?_⟩
  · intro fee bs
    unfold check_public_amount
    rw [if_pos rfl]
  · intro bs
    unfold check_public_amount
    rw [if_neg (show ¬ ((1000 : Int) = I64_MIN) by decide),
      if_neg (show ¬ ((0 : Int) ≤ 1000 ∧
        (1000 : Int).natAbs % FIELD_MODULUS ≤ 10 % FIELD_MODULUS) by decide),
      if_pos (show (0 : Int) ≤ 1000 by decide)]
    have h990 : ((1000 : Int).natAbs % FIELD_MODULUS + FIELD_MODULUS
        - 10 % FIELD_MODULUS) % FIELD_MODULUS = 990 := by decide
    rw [h990]
    simp [eq_comm]
  · intro bs
    unfold check_public_amount
    rw [if_neg (show ¬ ((5 : Int) = I64_MIN) by decide),
      if_pos (show (0 : Int) ≤ 5 ∧
        (5 : Int).natAbs % FIELD_MODULUS ≤ 10 % FIELD_MODULUS by decide)]
  · intro bs
    unfold check_public_amount
    rw [if_neg (show ¬ ((-500 : Int) = I64_MIN) by decide),
      if_neg (show ¬ ((0 : Int) ≤ -500 ∧
        (-500 : Int).natAbs % FIELD_MODULUS ≤ 5 % FIELD_MODULUS) by decide),
      if_neg (show ¬ ((0 : Int) ≤ -500) by decide)]
    have h505 : (FIELD_MODULUS -
        ((-500 : Int).natAbs % FIELD_MODULUS + 5 % FIELD_MODULUS) % FIELD_MODULUS)
        % FIELD_MODULUS = FIELD_MODULUS - 505 := by decide
    rw [h505]
    simp [eq_comm]

/-- Claim C9: `check_public_amount` sees the claimed public-amount bytes
only through their big-endian value reduced mod the field order, so any two
byte strings congruent modulo `FIELD_MODULUS` produce the same verdict for
every `ext_amount` and fee — in particular a non-canonical encoding (value
plus the modulus) of the expected amount is also accepted. -/
theorem C9_public_amount_mod_congruence (e : Int) (fee : Nat)
    (b1 b2 : List Nat)
    (h : beBytesToNat b1 % FIELD_MODULUS = beBytesToNat b2 % FIELD_MODULUS) :
    check_public_amount e fee b1 = check_public_amount e fee b2 := by
  unfold check_public_amount fromBeBytesModOrder
  rw [h]

/-- Witness for C9: the canonical 32-byte encoding of 990 and the
non-canonical encoding `990 + FIELD_MODULUS` get the same verdict for
`ext_amount = 1000, fee = 10` — and that verdict is acceptance, even for
the non-canonical bytes. -/
theorem C9_witness :
    check_public_amount 1000 10 bytes990
      = check_public_amount 1000 10 bytes990PlusMod ∧
    check_public_amount 1000 10 bytes990PlusMod = true :=
  ⟨C9_public_amount_mod_congruence 1000 10 bytes990 bytes990PlusMod (by decide),
   by decide⟩


/-- Embedding of the swap handler (`instructions/swap.rs` lines 106-310).
Note that the `validate_fee` call is commented out in the source (lines
174-180): no fee-policy validation stage exists on the swap path.  After
the exchange CPI the realized received amount is the checked balance delta
(`MathOverflow` on a negative delta), the realized fee is
`received - ext_min_amount_out` (`InsufficientSwapOutput` when the
received amount is below the minimum), and a positive realized fee is
transferred to the fee recipient.  The final `checked_neg` of
`ext_amount` for the event (source line 299) runs after the appends.
Each `checked_sub`/`checked_neg` fallback is written as the equivalent
if-guard on its exact failure condition. -/
def swap_handler (i : SwapInput) : List Step × Except ErrorCode SwapOutcome :=
  if ¬ i.rootKnown then
    ([.checkRoot], .error .UnknownRoot)
  else if ¬ (fromLeBytesModOrder i.calculatedExtDataHash
      = fromBeBytesModOrder i.proofExtDataHash) then
    ([.checkRoot, .checkExtDataHash], .error .ExtDataHashMismatch)
  else if ¬ (i.extAmount < 0) then
    ([.checkRoot, .checkExtDataHash, .checkExtAmountSign], .error .InvalidExtAmount)
  else if ¬ (0 ≤ i.extMinAmountOut) then
    ([.checkRoot, .checkExtDataHash, .checkExtAmountSign, .checkMinAmountOut],
      .error .InvalidExtAmount)
  else if ¬ (check_public_amount i.extAmount i.fee i.publicAmount0 = true) then
    ([.checkRoot, .checkExtDataHash, .checkExtAmountSign, .checkMinAmountOut,
      .checkPublicAmount0], .error .InvalidPublicAmountData)
  else if ¬ (check_public_amount i.extMinAmountOut 0 i.publicAmount1 = true) then
    ([.checkRoot, .checkExtDataHash, .checkExtAmountSign, .checkMinAmountOut,
      .checkPublicAmount0, .checkPublicAmount1], .error .InvalidPublicAmountData)
  else if ¬ i.proofValid then
    ([.checkRoot, .checkExtDataHash, .checkExtAmountSign, .checkMinAmountOut,
      .checkPublicAmount0, .checkPublicAmount1, .verifyProof], .error .InvalidProof)
  else if ¬ i.nullifiersOk then
    (swapStem, .error .ExternalCallFailure)
  else
    swap_execute i

/-- A deposit input that passes every stage: root known, matching ext-data
digests, leg-0 bytes encoding 990 for `ext_amount = 1000, fee = 10`, leg 1
exactly zero, a fee above the policy minimum, and succeeding external
calls. -/
def cDeposit : DepositInput where
  rootKnown := true
  calculatedExtDataHash := List.replicate 32 0
  proofExtDataHash := List.replicate 32 0
  extAmount := 1000
  fee := 10
  publicAmount0 := bytes990
  publicAmount1 := List.replicate 32 0
  depositFeeRate := 100
  withdrawalFeeRate := 0
  feeErrorMargin := 500
  proofValid := true
  maxDepositAmount := 1000000
  nullifiersOk := true
  depositTransferOk := true
  feeTransferOk := true
  appendsOk := true

/-- The traces the deposit handler can produce: one prefix per early
reject, plus the success traces with and without a fee transfer. -/
def depositTraces : List (List Step) :=
  [[.checkRoot],
   [.checkRoot, .checkExtDataHash],
   [.checkRoot, .checkExtDataHash, .checkPublicAmount0],
   [.checkRoot, .checkExtDataHash, .checkPublicAmount0, .checkPublicAmount1],
   [.checkRoot, .checkExtDataHash, .checkPublicAmount0, .checkPublicAmount1,
    .validateFee],
   [.checkRoot, .checkExtDataHash, .checkPublicAmount0, .checkPublicAmount1,
    .validateFee, .verifyProof],
   [.checkRoot, .checkExtDataHash, .checkPublicAmount0, .checkPublicAmount1,
    .validateFee, .verifyProof, .checkExtAmountSign],
   [.checkRoot, .checkExtDataHash, .checkPublicAmount0, .checkPublicAmount1,
    .validateFee, .verifyProof, .checkExtAmountSign, .checkDepositLimit],
   [.checkRoot, .checkExtDataHash, .checkPublicAmount0, .checkPublicAmount1,
    .validateFee, .verifyProof, .checkExtAmountSign, .checkDepositLimit,
    .registerNullifiers],
   [.checkRoot, .checkExtDataHash, .checkPublicAmount0, .checkPublicAmount1,
    .validateFee, .verifyProof, .checkExtAmountSign, .checkDepositLimit,
    .registerNullifiers, .transferUserToReserve],
   [.checkRoot, .checkExtDataHash, .checkPublicAmount0, .checkPublicAmount1,
    .validateFee, .verifyProof, .checkExtAmountSign, .checkDepositLimit,
    .registerNullifiers, .transferUserToReserve, .transferFee],
   [.checkRoot, .checkExtDataHash, .checkPublicAmount0, .checkPublicAmount1,
    .validateFee, .verifyProof, .checkExtAmountSign, .checkDepositLimit,
    .registerNullifiers, .transferUserToReserve, .transferFee,
    .appendCommitments],
   [.checkRoot, .checkExtDataHash, .checkPublicAmount0, .checkPublicAmount1,
    .validateFee, .verifyProof, .checkExtAmountSign, .checkDepositLimit,
    .registerNullifiers, .transferUserToReserve, .transferFee,
    .appendCommitments, .emitEvents],
   [.checkRoot, .checkExtDataHash, .checkPublicAmount0, .checkPublicAmount1,
    .validateFee, .verifyProof, .checkExtAmountSign, .checkDepositLimit,
    .registerNullifiers, .transferUserToReserve, .appendCommitments],
   [.checkRoot, .checkExtDataHash, .checkPublicAmount0, .checkPublicAmount1,
    .validateFee, .verifyProof, .checkExtAmountSign, .checkDepositLimit,
    .registerNullifiers, .transferUserToReserve, .appendCommitments,
    .emitEvents]]

/-- Every deposit run produces one of the traces in `depositTraces`. -/
theorem deposit_trace_mem (i : DepositInput) :
    (deposit_handler i).1 ∈ depositTraces := by
  unfold deposit_handler
  repeat' split
  all_goals try (unfold deposit_execute; repeat' split)
  all_goals dsimp only
  all_goals decide

/-- The traces the withdraw handler can produce. -/
def withdrawTraces : List (List Step) :=
  [[.checkRoot],
   [.checkRoot, .checkExtDataHash],
   [.checkRoot, .checkExtDataHash, .checkPublicAmount0],
   [.checkRoot, .checkExtDataHash, .checkPublicAmount0, .checkPublicAmount1],
   [.checkRoot, .checkExtDataHash, .checkPublicAmount0, .checkPublicAmount1,
    .validateFee],
   [.checkRoot, .checkExtDataHash, .checkPublicAmount0, .checkPublicAmount1,
    .validateFee, .verifyProof],
   [.checkRoot, .checkExtDataHash, .checkPublicAmount0, .checkPublicAmount1,
    .validateFee, .verifyProof, .checkExtAmountSign],
   withdrawStem,
   withdrawStem ++ [.checkReserveBalance],
   withdrawStem ++ [.checkReserveBalance, .transferFee],
   withdrawStem ++ [.checkReserveBalance, .checkRecipientAuthority],
   withdrawStem ++ [.checkReserveBalance, .checkRecipientAuthority,
     .transferToRecipient],
   withdrawStem ++ [.checkReserveBalance, .checkRecipientAuthority,
     .transferToRecipient, .closeRecipientAccount],
   withdrawStem ++ [.checkReserveBalance, .checkRecipientAuthority,
     .transferToRecipient, .closeRecipientAccount, .transferSolToRecipient],
   withdrawStem ++ [.checkReserveBalance, .checkRecipientAuthority,
     .transferToRecipient, .closeRecipientAccount, .transferSolToRecipient,
     .appendCommitments],
   withdrawStem ++ [.checkReserveBalance, .checkRecipientAuthority,
     .transferToRecipient, .closeRecipientAccount, .transferSolToRecipient,
     .appendCommitments, .emitEvents],
   withdrawStem ++ [.checkReserveBalance, .checkRecipientAuthority,
     .transferToRecipient, .appendCommitments],
   withdrawStem ++ [.checkReserveBalance, .checkRecipientAuthority,
     .transferToRecipient, .appendCommitments, .emitEvents],
   withdrawStem ++ [.checkReserveBalance, .transferFee,
     .checkRecipientAuthority],
   withdrawStem ++ [.checkReserveBalance, .transferFee,
     .checkRecipientAuthority, .transferToRecipient],
   withdrawStem ++ [.checkReserveBalance, .transferFee,
     .checkRecipientAuthority, .transferToRecipient, .closeRecipientAccount],
   withdrawStem ++ [.checkReserveBalance, .transferFee,
     .checkRecipientAuthority, .transferToRecipient, .closeRecipientAccount,
     .transferSolToRecipient],
   withdrawStem ++ [.checkReserveBalance, .transferFee,
     .checkRecipientAuthority, .transferToRecipient, .closeRecipientAccount,
     .transferSolToRecipient, .appendCommitments],
   withdrawStem ++ [.checkReserveBalance, .transferFee,
     .checkRecipientAuthority, .transferToRecipient, .closeRecipientAccount,
     .transferSolToRecipient, .appendCommitments, .emitEvents],
   withdrawStem ++ [.checkReserveBalance, .transferFee,
     .checkRecipientAuthority, .transferToRecipient, .appendCommitments],
   withdrawStem ++ [.checkReserveBalance, .transferFee,
     .checkRecipientAuthority, .transferToRecipient, .appendCommitments,
     .emitEvents]]

set_option maxHeartbeats 2000000 in
/-- Every withdraw run produces one of the traces in `withdrawTraces`. -/
theorem withdraw_trace_mem (i : WithdrawInput) :
    (withdraw_handler i).1 ∈ withdrawTraces := by
  unfold withdraw_handler
  repeat' split
  all_goals try (unfold withdraw_execute withdraw_payout; repeat' split)
  all_goals dsimp only
  all_goals decide

/-- The traces the swap handler can produce. -/
def swapTraces : List (List Step) :=
  [[.checkRoot],
   [.checkRoot, .checkExtDataHash],
   [.checkRoot, .checkExtDataHash, .checkExtAmountSign],
   [.checkRoot, .checkExtDataHash, .checkExtAmountSign, .checkMinAmountOut],
   [.checkRoot, .checkExtDataHash, .checkExtAmountSign, .checkMinAmountOut,
    .checkPublicAmount0],
   [.checkRoot, .checkExtDataHash, .checkExtAmountSign, .checkMinAmountOut,
    .checkPublicAmount0, .checkPublicAmount1],
   [.checkRoot, .checkExtDataHash, .checkExtAmountSign, .checkMinAmountOut,
    .checkPublicAmount0, .checkPublicAmount1, .verifyProof],
   swapStem,
   swapStem ++ [.checkJupiterData],
   swapStem ++ [.checkJupiterData, .invokeExchange],
   swapStem ++ [.checkJupiterData, .invokeExchange, .transferRealizedFee],
   swapStem ++ [.checkJupiterData, .invokeExchange, .transferRealizedFee,
     .appendCommitments],
   swapStem ++ [.checkJupiterData, .invokeExchange, .transferRealizedFee,
     .appendCommitments, .emitEvents],
   swapStem ++ [.checkJupiterData, .invokeExchange, .appendCommitments],
   swapStem ++ [.checkJupiterData, .invokeExchange, .appendCommitments,
     .emitEvents]]

set_option maxHeartbeats 2000000 in
/-- Every swap run produces one of the traces in `swapTraces`. -/
theorem swap_trace_mem (i : SwapInput) :
    (swap_handler i).1 ∈ swapTraces := by
  unfold swap_handler
  repeat' split
  all_goals try (unfold swap_execute; repeat' split)
  all_goals dsimp only
  all_goals decide

/-- `min_acceptable_fee` only ever fails with `ArithmeticOverflow`. -/
theorem min_acceptable_fee_error_kind (q m : Nat) (c : ErrorCode)
    (h : min_acceptable_fee q m = .error c) : c = .ArithmeticOverflow := by
  unfold min_acceptable_fee checkedSubU128 checkedMulU128 checkedDivU128 at h
  repeat' split at h
  all_goals simp_all

/-- `validate_fee` only ever fails with `ArithmeticOverflow` or
`InvalidFeeAmount`. -/
theorem validate_fee_error_kind (e : Int) (fee dr wr m : Nat) (c : ErrorCode)
    (h : validate_fee e fee dr wr m = .error c) :
    c = .ArithmeticOverflow ∨ c = .InvalidFeeAmount := by
  unfold validate_fee checkedNegI64 checkedMulU128 checkedDivU128 at h
  repeat' split at h
  all_goals simp_all
  all_goals exact Or.inl (min_acceptable_fee_error_kind _ _ _ (by assumption))

/-- The deposit handler reaches its fee-validation stage only after the
leg-0 field reconciliation succeeded and leg 1 was byte-for-byte zero. -/
theorem deposit_leg_checks (i : DepositInput) :
    Step.validateFee ∈ (deposit_handler i).1 →
      check_public_amount i.extAmount i.fee i.publicAmount0 = true ∧
      i.publicAmount1 = List.replicate 32 0 := by
  unfold deposit_handler
  repeat' split
  all_goals try (unfold deposit_execute; repeat' split)
  all_goals intro h
  all_goals simp_all

/-- The withdraw handler reaches its fee-validation stage only after the
leg-0 field reconciliation succeeded and leg 1 was byte-for-byte zero. -/
theorem withdraw_leg_checks (i : WithdrawInput) :
    Step.validateFee ∈ (withdraw_handler i).1 →
      check_public_amount i.extAmount i.fee i.publicAmount0 = true ∧
      i.publicAmount1 = List.replicate 32 0 := by
  unfold withdraw_handler
  repeat' split
  all_goals try (unfold withdraw_execute withdraw_payout; repeat' split)
  all_goals intro h
  all_goals simp_all [withdrawStem]

/-- The swap handler reaches its proof-verification stage only after the
field reconciliation succeeded on both legs, with a zero fee on leg 1. -/
theorem swap_leg_checks (i : SwapInput) :
    Step.verifyProof ∈ (swap_handler i).1 →
      check_public_amount i.extAmount i.fee i.publicAmount0 = true ∧
      check_public_amount i.extMinAmountOut 0 i.publicAmount1 = true := by
  unfold swap_handler
  repeat' split
  all_goals try (unfold swap_execute; repeat' split)
  all_goals intro h
  all_goals simp_all [swapStem]

/-- Binding-check characterization for the deposit handler: a mismatch of
the two field reductions under a known root stops the run right after the
binding stage with `ExtDataHashMismatch`, and that error can arise in no
other way. -/
theorem deposit_binding (i : DepositInput) :
    (i.rootKnown = true ∧
      ¬ fromLeBytesModOrder i.calculatedExtDataHash
          = fromBeBytesModOrder i.proofExtDataHash →
      deposit_handler i
        = ([.checkRoot, .checkExtDataHash], .error .ExtDataHashMismatch)) ∧
    ((deposit_handler i).2 = .error .ExtDataHashMismatch →
      i.rootKnown = true ∧
      ¬ fromLeBytesModOrder i.calculatedExtDataHash
          = fromBeBytesModOrder i.proofExtDataHash) := by
  constructor
  · intro ⟨h1, h2⟩
    simp [deposit_handler, h1, h2]
  · unfold deposit_handler
    repeat' split
    all_goals try (unfold deposit_execute; repeat' split)
    all_goals intro h
    all_goals try simp_all
    all_goals rcases validate_fee_error_kind _ _ _ _ _ _ (by assumption)
      with hk | hk <;> simp_all

/-- Binding-check characterization for the withdraw handler. -/
theorem withdraw_binding (i : WithdrawInput) :
    (i.rootKnown = true ∧
      ¬ fromLeBytesModOrder i.calculatedExtDataHash
          = fromBeBytesModOrder i.proofExtDataHash →
      withdraw_handler i
        = ([.checkRoot, .checkExtDataHash], .error .ExtDataHashMismatch)) ∧
    ((withdraw_handler i).2 = .error .ExtDataHashMismatch →
      i.rootKnown = true ∧
      ¬ fromLeBytesModOrder i.calculatedExtDataHash
          = fromBeBytesModOrder i.proofExtDataHash) := by
  constructor
  · intro ⟨h1, h2⟩
    simp [withdraw_handler, h1, h2]
  · unfold withdraw_handler
    repeat' split
    all_goals try (unfold withdraw_execute withdraw_payout; repeat' split)
    all_goals intro h
    all_goals try simp_all [withdrawStem]
    all_goals rcases validate_fee_error_kind _ _ _ _ _ _ (by assumption)
      with hk | hk <;> simp_all

/-- Binding-check characterization for the swap handler. -/
theorem swap_binding (i : SwapInput) :
    (i.rootKnown = true ∧
      ¬ fromLeBytesModOrder i.calculatedExtDataHash
          = fromBeBytesModOrder i.proofExtDataHash →
      swap_handler i
        = ([.checkRoot, .checkExtDataHash], .error .ExtDataHashMismatch)) ∧
    ((swap_handler i).2 = .error .ExtDataHashMismatch →
      i.rootKnown = true ∧
      ¬ fromLeBytesModOrder i.calculatedExtDataHash
          = fromBeBytesModOrder i.proofExtDataHash) := by
  constructor
  · intro ⟨h1, h2⟩
    simp [swap_handler, h1, h2]
  · unfold swap_handler
    repeat' split
    all_goals try (unfold swap_execute; repeat' split)
    all_goals intro h
    all_goals simp_all [swapStem]

/-- After nullifier registration, a reserve balance below the withdrawal
amount is fatal with `InsufficientFundsForWithdrawal`. -/
theorem withdraw_insufficient (i : WithdrawInput) :
    Step.checkReserveBalance ∈ (withdraw_handler i).1 →
      i.reserveBalance < i.extAmount.natAbs →
      (withdraw_handler i).2 = .error .InsufficientFundsForWithdrawal := by
  unfold withdraw_handler
  repeat' split
  all_goals try (unfold withdraw_execute withdraw_payout; repeat' split)
  all_goals intro h1 h2
  all_goals try simp_all [withdrawStem]
  all_goals omega

/-- A withdraw run with a positive fee that reaches the recipient payout
has already run the fee transfer. -/
theorem withdraw_fee_presence (i : WithdrawInput) :
    0 < i.fee → Step.transferToRecipient ∈ (withdraw_handler i).1 →
      Step.transferFee ∈ (withdraw_handler i).1 := by
  unfold withdraw_handler
  repeat' split
  all_goals try (unfold withdraw_execute withdraw_payout; repeat' split)
  all_goals intro h1 h2
  all_goals simp_all [withdrawStem]

/-- A successful swap returns the checked balance delta as the received
amount, requires it to reach `ext_min_amount_out`, realizes the difference
as the fee, and transfers a positive realized fee. -/
theorem swap_ok_outcome (i : SwapInput) :
    ∀ o : SwapOutcome, (swap_handler i).2 = .ok o →
      o.actualAmountReceived = i.balanceAfter - i.balanceBefore ∧
      i.extMinAmountOut.toNat ≤ o.actualAmountReceived ∧
      o.calculatedFee = o.actualAmountReceived - i.extMinAmountOut.toNat ∧
      (0 < o.calculatedFee → Step.transferRealizedFee ∈ (swap_handler i).1) := by
  rcases hsw : swap_handler i with ⟨t, r⟩
  unfold swap_handler at hsw
  repeat' split at hsw
  all_goals try (unfold swap_execute at hsw; repeat' split at hsw)
  all_goals cases hsw
  all_goals intro o h
  all_goals dsimp only at h ⊢
  all_goals first
    | exact Except.noConfusion h
    | (injection h with h2; subst h2;
       refine ⟨by dsimp <;> omega, by dsimp <;> omega, by dsimp <;> omega,
         fun hf => ?_⟩;
       first | decide | (exfalso; revert hf; dsimp; omega))

/-- A swap whose exchange call and reload succeed but whose balance delta
falls short of `ext_min_amount_out` fails with `InsufficientSwapOutput`. -/
theorem swap_slippage_reject (i : SwapInput) :
    Step.invokeExchange ∈ (swap_handler i).1 → i.exchangeOk = true →
      i.reloadOk = true → i.balanceBefore ≤ i.balanceAfter →
      i.balanceAfter - i.balanceBefore < i.extMinAmountOut.toNat →
      (swap_handler i).2 = .error .InsufficientSwapOutput := by
  unfold swap_handler
  repeat' split
  all_goals try (unfold swap_execute; repeat' split)
  all_goals intro h1 h2 h3 h4 h5
  all_goals try simp_all [swapStem]
  all_goals omega

/-- `cDeposit` with leg-1 public-amount bytes that are field-equal to zero
(the 32-byte encoding of the modulus itself) but not the zero byte
pattern. -/
def cDepositFieldZeroLeg1 : DepositInput :=
  { cDeposit with publicAmount1 := bytesMod }

/-- `cDeposit` with a claimed `ext_data_hash` whose big-endian reduction
(990) differs from the little-endian reduction of the computed digest
(0). -/
def cDepositBadHash : DepositInput :=
  { cDeposit with proofExtDataHash := bytes990 }

/-- A withdraw input that passes every stage: `ext_amount = -500`,
`fee = 5`, leg-0 bytes encoding `FIELD_MODULUS - 505`, leg 1 exactly zero,
zero withdrawal rate, an SPL (non-WSOL) payout, and a reserve of 1000. -/
def cWithdraw : WithdrawInput where
  rootKnown := true
  calculatedExtDataHash := List.replicate 32 0
  proofExtDataHash := List.replicate 32 0
  extAmount := -500
  fee := 5
  publicAmount0 := bytesModMinus505
  publicAmount1 := List.replicate 32 0
  depositFeeRate := 100
  withdrawalFeeRate := 0
  feeErrorMargin := 500
  proofValid := true
  nullifiersOk := true
  reserveBalance := 1000
  feeTransferOk := true
  isNativeSol := false
  recipientAuthorityOk := true
  recipientTransferOk := true
  closeOk := true
  solTransferOk := true
  appendsOk := true

/-- `cWithdraw` with a reserve balance of 100, below the withdrawal
amount 500. -/
def cWithdrawLowReserve : WithdrawInput :=
  { cWithdraw with reserveBalance := 100 }

/-- A swap input that passes every stage: `ext_amount = -100`, `fee = 1`,
`ext_min_amount_out = 900`, leg-0 bytes encoding `FIELD_MODULUS - 101`,
leg-1 bytes encoding 900, and a custody balance delta of 950. -/
def cSwap950 : SwapInput where
  rootKnown := true
  calculatedExtDataHash := List.replicate 32 0
  proofExtDataHash := List.replicate 32 0
  extAmount := -100
  extMinAmountOut := 900
  fee := 1
  publicAmount0 := bytesModMinus101
  publicAmount1 := bytes900
  proofValid := true
  nullifiersOk := true
  jupiterSwapData := [1]
  exchangeOk := true
  reloadOk := true
  balanceBefore := 0
  balanceAfter := 950
  feeTransferOk := true
  appendsOk := true

/-- `cSwap950` with a realized balance delta of only 880, below the
declared minimum of 900. -/
def cSwap880 : SwapInput :=
  { cSwap950 with balanceAfter := 880 }

/-- Counterexample for claim C2 as stated: a swap run that registers
nullifiers (and completes) without ever consulting the Fee Policy Engine —
the swap handler's `validate_fee` call is commented out in the source. -/
theorem C2_counterexample :
    Step.registerNullifiers ∈ (swap_handler cSwap950).1 ∧
    Step.validateFee ∉ (swap_handler cSwap950).1 ∧
    (swap_handler cSwap950).2 = .ok ⟨950, 50⟩ := by
  decide

/-- Claim C2 (amended): deposit and withdraw ask the Fee Policy Engine to
validate the fee after the ext-data binding check and before nullifier
registration — every run that registers nullifiers has validated the fee —
while the swap handler performs no fee validation at all (its realized fee
is computed from the balance delta after the exchange call instead). -/
theorem C2_fee_validation_stage :
    (∀ i : DepositInput,
      occursBefore .checkExtDataHash .validateFee (deposit_handler i).1 ∧
      occursBefore .validateFee .registerNullifiers (deposit_handler i).1 ∧
      (Step.registerNullifiers ∈ (deposit_handler i).1 →
        Step.validateFee ∈ (deposit_handler i).1)) ∧
    (∀ i : WithdrawInput,
      occursBefore .checkExtDataHash .validateFee (withdraw_handler i).1 ∧
      occursBefore .validateFee .registerNullifiers (withdraw_handler i).1 ∧
      (Step.registerNullifiers ∈ (withdraw_handler i).1 →
        Step.validateFee ∈ (withdraw_handler i).1)) ∧
    (∀ i : SwapInput, Step.validateFee ∉ (swap_handler i).1) := by
  refine ⟨fun i => ⟨?_, ?_, fun h => ?_⟩, fun i => ⟨?_, ?_, fun h => ?_⟩,
    fun i h => ?_⟩
  · exact (show ∀ t ∈ depositTraces,
      occursBefore Step.checkExtDataHash Step.validateFee t by decide)
      _ (deposit_trace_mem i)
  · exact (show ∀ t ∈ depositTraces,
      occursBefore Step.validateFee Step.registerNullifiers t by decide)
      _ (deposit_trace_mem i)
  · exact (show ∀ t ∈ depositTraces,
      Step.registerNullifiers ∈ t → Step.validateFee ∈ t by decide)
      _ (deposit_trace_mem i) h
  · exact (show ∀ t ∈ withdrawTraces,
      occursBefore Step.checkExtDataHash Step.validateFee t by decide)
      _ (withdraw_trace_mem i)
  · exact (show ∀ t ∈ withdrawTraces,
      occursBefore Step.validateFee Step.registerNullifiers t by decide)
      _ (withdraw_trace_mem i)
  · exact (show ∀ t ∈ withdrawTraces,
      Step.registerNullifiers ∈ t → Step.validateFee ∈ t by decide)
      _ (withdraw_trace_mem i) h
  · exact (show ∀ t ∈ swapTraces, Step.validateFee ∉ t by decide)
      _ (swap_trace_mem i) h

/-- Witness for C2: a complete deposit run validates the fee, strictly
before registering nullifiers. -/
theorem C2_witness :
    Step.validateFee ∈ (deposit_handler cDeposit).1 ∧
    (deposit_handler cDeposit).1.indexOf Step.validateFee
      < (deposit_handler cDeposit).1.indexOf Step.registerNullifiers := by
  refine ⟨(C2_fee_validation_stage.1 cDeposit).2.2 (by decide), ?_⟩
  exact (C2_fee_validation_stage.1 cDeposit).2.1 (by decide) (by decide)

/-- Claim C5: deposit and withdraw run the field reconciliation only on
leg 0 and require leg 1 to be byte-for-byte zero before proceeding to fee
validation; swap runs the reconciliation on both legs with a zero fee on
leg 1; and a leg-1 value that is field-equal to zero but not the zero byte
pattern is rejected. -/
theorem C5_leg_reconciliation :
    (∀ i : DepositInput, Step.validateFee ∈ (deposit_handler i).1 →
      check_public_amount i.extAmount i.fee i.publicAmount0 = true ∧
      i.publicAmount1 = List.replicate 32 0) ∧
    (∀ i : WithdrawInput, Step.validateFee ∈ (withdraw_handler i).1 →
      check_public_amount i.extAmount i.fee i.publicAmount0 = true ∧
      i.publicAmount1 = List.replicate 32 0) ∧
    (∀ i : SwapInput, Step.verifyProof ∈ (swap_handler i).1 →
      check_public_amount i.extAmount i.fee i.publicAmount0 = true ∧
      check_public_amount i.extMinAmountOut 0 i.publicAmount1 = true) ∧
    (deposit_handler cDepositFieldZeroLeg1).2 = .error .InvalidPublicAmountData ∧
    fromBeBytesModOrder cDepositFieldZeroLeg1.publicAmount1 = 0 :=
  ⟨deposit_leg_checks, withdraw_leg_checks, swap_leg_checks,
   by decide, by decide⟩

/-- Witness for C5: the complete deposit run satisfies both leg checks. -/
theorem C5_witness :
    check_public_amount cDeposit.extAmount cDeposit.fee cDeposit.publicAmount0
      = true ∧
    cDeposit.publicAmount1 = List.replicate 32 0 :=
  C5_leg_reconciliation.1 cDeposit (by decide)

/-- Claim C6: for every handler, a mismatch between the little-endian
field reduction of the recomputed ext-data digest and the big-endian field
reduction of the proof's claimed `ext_data_hash` (under a known root) is a
hard reject with `ExtDataHashMismatch` whose trace stops at the binding
stage — no later step runs — and `ExtDataHashMismatch` arises in no other
way, so the binding check passes exactly when the two reductions are
equal. -/
theorem C6_binding_check :
    (∀ i : DepositInput,
      (i.rootKnown = true ∧
        ¬ fromLeBytesModOrder i.calculatedExtDataHash
            = fromBeBytesModOrder i.proofExtDataHash →
        deposit_handler i
          = ([.checkRoot, .checkExtDataHash], .error .ExtDataHashMismatch)) ∧
      ((deposit_handler i).2 = .error .ExtDataHashMismatch →
        i.rootKnown = true ∧
        ¬ fromLeBytesModOrder i.calculatedExtDataHash
            = fromBeBytesModOrder i.proofExtDataHash)) ∧
    (∀ i : WithdrawInput,
      (i.rootKnown = true ∧
        ¬ fromLeBytesModOrder i.calculatedExtDataHash
            = fromBeBytesModOrder i.proofExtDataHash →
        withdraw_handler i
          = ([.checkRoot, .checkExtDataHash], .error .ExtDataHashMismatch)) ∧
      ((withdraw_handler i).2 = .error .ExtDataHashMismatch →
        i.rootKnown = true ∧
        ¬ fromLeBytesModOrder i.calculatedExtDataHash
            = fromBeBytesModOrder i.proofExtDataHash)) ∧
    (∀ i : SwapInput,
      (i.rootKnown = true ∧
        ¬ fromLeBytesModOrder i.calculatedExtDataHash
            = fromBeBytesModOrder i.proofExtDataHash →
        swap_handler i
          = ([.checkRoot, .checkExtDataHash], .error .ExtDataHashMismatch)) ∧
      ((swap_handler i).2 = .error .ExtDataHashMismatch →
        i.rootKnown = true ∧
        ¬ fromLeBytesModOrder i.calculatedExtDataHash
            = fromBeBytesModOrder i.proofExtDataHash)) :=
  ⟨deposit_binding, withdraw_binding, swap_binding⟩

/-- Witness for C6: a deposit whose claimed hash reduces to 990 while the
digest reduces to 0 stops right after the binding stage with
`ExtDataHashMismatch`. -/
theorem C6_witness :
    deposit_handler cDepositBadHash
      = ([Step.checkRoot, Step.checkExtDataHash],
         .error .ExtDataHashMismatch) :=
  (C6_binding_check.1 cDepositBadHash).1 ⟨by decide, by decide⟩

/-- Claim C7: a successful swap's realized received amount is the custody
balance delta, which must reach `ext_min_amount_out`; the realized fee is
exactly the excess over the minimum and a positive realized fee is
transferred to the fee recipient; a delta below the minimum is rejected
with `InsufficientSwapOutput`. -/
theorem C7_swap_realized_fee (i : SwapInput) :
    (∀ o : SwapOutcome, (swap_handler i).2 = .ok o →
      o.actualAmountReceived = i.balanceAfter - i.balanceBefore ∧
      i.extMinAmountOut.toNat ≤ o.actualAmountReceived ∧
      o.calculatedFee = o.actualAmountReceived - i.extMinAmountOut.toNat ∧
      (0 < o.calculatedFee → Step.transferRealizedFee ∈ (swap_handler i).1)) ∧
    (Step.invokeExchange ∈ (swap_handler i).1 → i.exchangeOk = true →
      i.reloadOk = true → i.balanceBefore ≤ i.balanceAfter →
      i.balanceAfter - i.balanceBefore < i.extMinAmountOut.toNat →
      (swap_handler i).2 = .error .InsufficientSwapOutput) :=
  ⟨swap_ok_outcome i, swap_slippage_reject i⟩

/-- Witness for C7: with `min_amount_out = 900`, a realized delta of 950
succeeds with realized fee 50 (which is transferred), and a delta of 880
is rejected with `InsufficientSwapOutput`. -/
theorem C7_witness :
    (swap_handler cSwap950).2 = .ok ⟨950, 50⟩ ∧
    Step.transferRealizedFee ∈ (swap_handler cSwap950).1 ∧
    (swap_handler cSwap880).2 = .error .InsufficientSwapOutput := by
  refine ⟨by decide, ?_, ?_⟩
  · exact ((C7_swap_realized_fee cSwap950).1 ⟨950, 50⟩ (by decide)).2.2.2
      (by decide)
  · exact (C7_swap_realized_fee cSwap880).2 (by decide) rfl rfl (by decide)
      (by decide)

/-- Claim C8: in the withdraw handler, once the run has passed nullifier
registration (which strictly precedes the reserve check), a reserve
balance below the withdrawal amount is rejected with
`InsufficientFundsForWithdrawal`; otherwise the fee transfer runs before
every step that pays the recipient — the token transfer, the
account-close, and the SOL transfer — and a positive fee is always
transferred before the recipient payout. -/
theorem C8_withdraw_order (i : WithdrawInput) :
    (Step.checkReserveBalance ∈ (withdraw_handler i).1 →
      i.reserveBalance < i.extAmount.natAbs →
      (withdraw_handler i).2 = .error .InsufficientFundsForWithdrawal) ∧
    occursBefore .registerNullifiers .checkReserveBalance
      (withdraw_handler i).1 ∧
    occursBefore .transferFee .transferToRecipient (withdraw_handler i).1 ∧
    occursBefore .transferFee .closeRecipientAccount (withdraw_handler i).1 ∧
    occursBefore .transferFee .transferSolToRecipient (withdraw_handler i).1 ∧
    (0 < i.fee → Step.transferToRecipient ∈ (withdraw_handler i).1 →
      Step.transferFee ∈ (withdraw_handler i).1) := by
  refine ⟨withdraw_insufficient i, ?_, ?_, ?_, ?_, withdraw_fee_presence i⟩
  · exact (show ∀ t ∈ withdrawTraces,
      occursBefore Step.registerNullifiers Step.checkReserveBalance t
      by decide) _ (withdraw_trace_mem i)
  · exact (show ∀ t ∈ withdrawTraces,
      occursBefore Step.transferFee Step.transferToRecipient t by decide)
      _ (withdraw_trace_mem i)
  · exact (show ∀ t ∈ withdrawTraces,
      occursBefore Step.transferFee Step.closeRecipientAccount t by decide)
      _ (withdraw_trace_mem i)
  · exact (show ∀ t ∈ withdrawTraces,
      occursBefore Step.transferFee Step.transferSolToRecipient t by decide)
      _ (withdraw_trace_mem i)

/-- Witness for C8: a reserve of 100 rejects a 500 withdrawal with the
insufficient-funds error, and in a complete withdraw run the fee transfer
precedes the recipient transfer. -/
theorem C8_witness :
    (withdraw_handler cWithdrawLowReserve).2
      = .error .InsufficientFundsForWithdrawal ∧
    (withdraw_handler cWithdraw).1.indexOf Step.transferFee
      < (withdraw_handler cWithdraw).1.indexOf Step.transferToRecipient := by
  refine ⟨(C8_withdraw_order cWithdrawLowReserve).1 (by decide) (by decide), ?_⟩
  exact (C8_withdraw_order cWithdraw).2.2.1 (by decide) (by decide)

end Yona
